import Mathlib

/-!
Verification of the payment-reconciliation backend (`src/index.js`).

The embedding models the Express handlers as pure state transformers over
two external stores:

* the Account Directory (`admin.auth()`), modelled as a partial map from
  email to uid;
* the Balance Ledger (`db.collection("users")`), modelled as a partial map
  from uid to a user document.

JavaScript numbers are modelled as rationals (exact arithmetic; floating
point rounding and NaN are outside the model).  Fallible external calls
are modelled by the `Option` shape of the stores: a failed
`getUserByEmail` is a `none` lookup, and the handler's `try/catch`
structure is reflected branch by branch.
-/

/-- One element of a user's `dailyActivities` array:
an activity label together with an ISO timestamp string. -/
structure Entry where
  activity : String
  timestamp : String
deriving DecidableEq

/-- The persisted user record written at signup (src/index.js lines 58-67).
`balance` is `Option ℚ` because a stored document may lack the field
altogether (the webhook code guards with `doc.data().balance || 0`). -/
structure UserDoc where
  uid : String
  email : String
  referralLink : String
  referredBy : Option String
  balance : Option ℚ
  teamCount : ℕ
  dailyActivities : List Entry
  createdAt : String
deriving DecidableEq

/-- The `customer` object of a Paystack webhook payload; `email` is
optional because the payload is attacker-controlled. -/
structure Customer where
  email : Option String
deriving DecidableEq

/-- The `data` object of a Paystack webhook payload.  The handler reads
`data.customer` and `data.amount`; `transactionId` is carried by the
gateway but never read by the code. -/
structure PaystackData where
  customer : Option Customer
  amount : ℚ
  transactionId : Option String
deriving DecidableEq

/-- A webhook request body: `req.body` destructured as `event` and `data`
(src/index.js line 115).  Either field may be absent. -/
structure WebhookBody where
  event : Option String
  data : Option PaystackData
deriving DecidableEq

/-- Outcome of the webhook route as seen by the gateway.
`ok200` is `res.sendStatus(200)`.  `uncaught` marks a synchronous throw
outside the try block (line 123 when `data` or `data.customer` is
undefined): Express 4 does not catch an async handler's rejection, so no
response is sent at all. -/
inductive WebhookResponse where
  | ok200
  | uncaught
deriving DecidableEq

/-- The Account Directory: resolves an email to a uid, `none` when
`getUserByEmail` rejects. -/
def AuthDir : Type := String → Option String

/-- The Balance Ledger: one document per uid. -/
def Ledger : Type := String → Option UserDoc

/-- JavaScript `x || 0` on a possibly-absent number: `undefined` and `0`
are falsy, any other rational is truthy (src/index.js line 135). -/
def orZero (v : Option ℚ) : ℚ :=
  match v with
  | none => 0
  | some b => if b = 0 then 0 else b

/-- Body of the Firestore transaction (src/index.js lines 135-137):
`currentBalance = doc.data().balance || 0;
 newBalance = currentBalance + amount / 100`. -/
def creditTx (bal : Option ℚ) (amount : ℚ) : ℚ :=
  orZero bal + amount / 100

/-- src/index.js line 46. -/
def generateReferralLink (uid : String) : String :=
  "https://vest.com/ref/" ++ uid

/-- Firestore `FieldValue.arrayUnion`: appends the element at the end of
the array, but only when no equal element is already present. -/
def arrayUnion (xs : List Entry) (e : Entry) : List Entry :=
  if e ∈ xs then xs else xs ++ [e]

/-- The `POST /paystack/webhook` handler (src/index.js lines 114-149).
`sig` is the request's signature header: the code never reads it, so it
is an unused argument here.  Branches:
* event other than "charge.success": fall through to `sendStatus(200)`;
* `data` or `data.customer` undefined: `data.customer` on line 123 throws
  outside the try block, no response (`uncaught`);
* email absent or unknown: `getUserByEmail` rejects inside the try,
  caught and logged, 200, no mutation;
* ledger document missing: the transaction throws, caught, 200;
* otherwise: transactional balance credit, then 200. -/
def paystackWebhook (sig : Option String) (auth : AuthDir) (users : Ledger)
    (body : WebhookBody) : WebhookResponse × Ledger :=
  if body.event = some "charge.success" then
    match body.data with
    | none => (.uncaught, users)
    | some d =>
      match d.customer with
      | none => (.uncaught, users)
      | some c =>
        match c.email with
        | none => (.ok200, users)
        | some e =>
          match auth e with
          | none => (.ok200, users)
          | some uid =>
            match users uid with
            | none => (.ok200, users)
            | some doc =>
              (.ok200, fun u =>
                if u = uid then
                  some { doc with balance := some (creditTx doc.balance d.amount) }
                else users u)
  else (.ok200, users)

/-- Success path of `POST /signup` (src/index.js lines 51-74): `createUser`
assigns the fresh `uid` (a parameter here, as is the clock value `now`),
the directory gains the email binding, and the ledger document is written
with balance 0.  `password` is forwarded to `createUser` and never stored.
Returns (status, directory, ledger). -/
def signup (auth : AuthDir) (users : Ledger) (email password : String)
    (referredBy : Option String) (uid now : String) :
    ℕ × AuthDir × Ledger :=
  let _ := password
  let userData : UserDoc :=
    { uid := uid
      email := email
      referralLink := generateReferralLink uid
      referredBy := referredBy
      balance := some 0
      teamCount := 0
      dailyActivities := []
      createdAt := now }
  (201, fun e => if e = email then some uid else auth e,
    fun u => if u = uid then some userData else users u)

/-- The `POST /activity` handler (src/index.js lines 152-166):
`update` with `arrayUnion` of one fresh entry; `update` on a missing
document rejects, caught as a 500.  `now` is the clock value used for
the entry's timestamp. -/
def logActivity (users : Ledger) (uid act now : String) : ℕ × Ledger :=
  match users uid with
  | none => (500, users)
  | some doc =>
      (200, fun u =>
        if u = uid then
          some { doc with
                  dailyActivities := arrayUnion doc.dailyActivities ⟨act, now⟩ }
        else users u)

/-- A webhook body on which the handler throws before the try block:
event "charge.success" with `data` or `data.customer` undefined. -/
def crashes (b : WebhookBody) : Bool :=
  b.event = some "charge.success" &&
    (match b.data with
     | none => true
     | some d => d.customer.isNone)

/-! ### Model of `db.runTransaction` under concurrency

Firestore's `runTransaction` (used at src/index.js lines 130-139) gives
optimistic per-document transactions: the transaction body reads the
document, computes, and the commit succeeds only if the document has not
changed since the read; otherwise the whole body is retried.  The spec
relies on exactly this primitive for lost-update prevention (§5).  We
model two concurrent webhook credits of amounts `a` and `b` to the same
user: each transaction is in one of three phases, the document carries a
version number bumped by every committed write, and a commit with a stale
snapshot version is forced back to `pending` (retry). -/

/-- Phase of one in-flight `runTransaction` call. -/
inductive TxPhase where
  | pending
  | readDone (snapBal : ℚ) (snapVer : ℕ)
  | committed
deriving DecidableEq

/-- Shared state: the user document's balance field, its write version,
and the phases of the two concurrent credit transactions. -/
structure CState where
  balance : ℚ
  version : ℕ
  txA : TxPhase
  txB : TxPhase
deriving DecidableEq

/-- Interleaving steps of the two concurrent credit transactions.  A
`commit` writes `creditTx (some snapshot) amount` — exactly the
transaction body of the webhook handler — and bumps the version; it is
only enabled when the snapshot version is still current.  A stale
snapshot retries. -/
inductive WStep (a b : ℚ) : CState → CState → Prop where
  | readA (s : CState) (h : s.txA = .pending) :
      WStep a b s { s with txA := .readDone s.balance s.version }
  | commitA (s : CState) (bal : ℚ) (ver : ℕ) (t : CState)
      (h : s.txA = .readDone bal ver) (hv : ver = s.version)
      (ht : t = { balance := creditTx (some bal) a, version := s.version + 1,
                  txA := .committed, txB := s.txB }) :
      WStep a b s t
  | retryA (s : CState) (bal : ℚ) (ver : ℕ)
      (h : s.txA = .readDone bal ver) (hv : ver ≠ s.version) :
      WStep a b s { s with txA := .pending }
  | readB (s : CState) (h : s.txB = .pending) :
      WStep a b s { s with txB := .readDone s.balance s.version }
  | commitB (s : CState) (bal : ℚ) (ver : ℕ) (t : CState)
      (h : s.txB = .readDone bal ver) (hv : ver = s.version)
      (ht : t = { balance := creditTx (some bal) b, version := s.version + 1,
                  txA := s.txA, txB := .committed }) :
      WStep a b s t
  | retryB (s : CState) (bal : ℚ) (ver : ℕ)
      (h : s.txB = .readDone bal ver) (hv : ver ≠ s.version) :
      WStep a b s { s with txB := .pending }

/-- Initial state: balance `S`, both credit transactions yet to run. -/
def initState (S : ℚ) : CState :=
  { balance := S, version := 0, txA := .pending, txB := .pending }

/-- The credit contributed so far by a transaction of amount `amt` in
phase `p`. -/
def contrib (amt : ℚ) : TxPhase → ℚ
  | .pending => 0
  | .readDone _ _ => 0
  | .committed => amt / 100

/-- Invariant of the concurrent-credit system: the balance accounts for
exactly the committed credits, and any snapshot taken at the current
version saw the current balance (snapshots never come from the future). -/
def CInv (S a b : ℚ) (s : CState) : Prop :=
  s.balance = S + contrib a s.txA + contrib b s.txB ∧
  (∀ bal ver, s.txA = .readDone bal ver → ver ≤ s.version ∧
      (ver = s.version → bal = s.balance)) ∧
  (∀ bal ver, s.txB = .readDone bal ver → ver ≤ s.version ∧
      (ver = s.version → bal = s.balance))

/-! ### Concrete fixtures used by the closed theorems -/

/-- Directory containing the single account a@x.com bound to uid u1. -/
def auth0 : AuthDir := fun e => if e = "a@x.com" then some "u1" else none

/-- An empty Account Directory: no email resolves. -/
def authE : AuthDir := fun _ => none

/-- An empty Balance Ledger. -/
def usersE : Ledger := fun _ => none

/-- The ledger document for u1 as written by signup (balance 0). -/
def doc0 : UserDoc :=
  { uid := "u1"
    email := "a@x.com"
    referralLink := generateReferralLink "u1"
    referredBy := none
    balance := some 0
    teamCount := 0
    dailyActivities := []
    createdAt := "t0" }

/-- Ledger containing only u1's document. -/
def users0 : Ledger := fun u => if u = "u1" then some doc0 else none

/-- A successful-charge notification for a@x.com over 50000 smallest
currency units, gateway event id evt_1. -/
def demoBody : WebhookBody :=
  { event := some "charge.success"
    data := some
      { customer := some { email := some "a@x.com" }
        amount := 50000
        transactionId := some "evt_1" } }

/-- A charge.success notification whose `data` field is absent. -/
def noDataBody : WebhookBody :=
  { event := some "charge.success", data := none }

/-- u1's document with one prior activity entry. -/
def doc9 : UserDoc := { doc0 with dailyActivities := [⟨"login", "t1"⟩] }

/-- Ledger holding `doc9`. -/
def users9 : Ledger := fun u => if u = "u1" then some doc9 else none

/-- u1's document with the balance field absent. -/
def docNB : UserDoc := { doc0 with balance := none }

/-- Ledger holding `docNB`. -/
def usersNB : Ledger := fun u => if u = "u1" then some docNB else none

/-- Result of the round-trip signup of a@x.com into empty stores. -/
def postSignup : ℕ × AuthDir × Ledger :=
  signup authE usersE "a@x.com" "pw" none "u1" "t0"

/-- Stores after the first delivery of the round-trip webhook event. -/
def afterFirst : WebhookResponse × Ledger :=
  paystackWebhook none postSignup.2.1 postSignup.2.2 demoBody

/-- Stores after re-delivering the identical webhook event. -/
def afterSecond : WebhookResponse × Ledger :=
  paystackWebhook none postSignup.2.1 afterFirst.2 demoBody

/-! ### Helper lemmas -/

lemma orZero_some (x : ℚ) : orZero (some x) = x := by
  simp only [orZero]
  split
  · simp_all
  · rfl

lemma cinv_init (S a b : ℚ) : CInv S a b (initState S) := by
  refine ⟨by simp [initState, contrib], ?_, ?_⟩ <;>
    intro bal ver h <;> simp [initState] at h

lemma cinv_step {S a b : ℚ} {s t : CState} (hs : CInv S a b s)
    (h : WStep a b s t) : CInv S a b t := by
  obtain ⟨hbal, hA, hB⟩ := hs
  cases h with
  | readA hp =>
      refine ⟨by simpa [contrib, hp] using hbal, ?_, ?_⟩
      · intro bal ver h
        simp only [TxPhase.readDone.injEq] at h
        obtain ⟨h1, h2⟩ := h
        subst h1; subst h2
        exact ⟨le_rfl, fun _ => rfl⟩
      · intro bal ver h
        exact hB bal ver h
  | commitA bal ver t hp hv ht =>
      subst ht
      obtain ⟨hle, heq⟩ := hA bal ver hp
      have hbal' : bal = s.balance := heq hv
      refine ⟨?_, ?_, ?_⟩
      · show creditTx (some bal) a = S + contrib a .committed + contrib b s.txB
        rw [creditTx, orZero_some, hbal', hbal, hp]
        simp only [contrib]
        ring
      · intro b' v' h
        exact TxPhase.noConfusion h
      · intro b' v' h
        obtain ⟨hle', _⟩ := hB b' v' h
        refine ⟨Nat.le_succ_of_le hle', fun hv' => ?_⟩
        have hveq : v' = s.version + 1 := hv'
        exact absurd hveq (by omega)
  | retryA bal ver hp hv =>
      refine ⟨by simpa [contrib, hp] using hbal, ?_, ?_⟩
      · intro b' v' h
        simp at h
      · intro b' v' h
        exact hB b' v' h
  | readB hp =>
      refine ⟨by simpa [contrib, hp] using hbal, ?_, ?_⟩
      · intro bal ver h
        exact hA bal ver h
      · intro bal ver h
        simp only [TxPhase.readDone.injEq] at h
        obtain ⟨h1, h2⟩ := h
        subst h1; subst h2
        exact ⟨le_rfl, fun _ => rfl⟩
  | commitB bal ver t hp hv ht =>
      subst ht
      obtain ⟨hle, heq⟩ := hB bal ver hp
      have hbal' : bal = s.balance := heq hv
      refine ⟨?_, ?_, ?_⟩
      · show creditTx (some bal) b = S + contrib a s.txA + contrib b .committed
        rw [creditTx, orZero_some, hbal', hbal, hp]
        simp only [contrib]
        ring
      · intro b' v' h
        obtain ⟨hle', _⟩ := hA b' v' h
        refine ⟨Nat.le_succ_of_le hle', fun hv' => ?_⟩
        have hveq : v' = s.version + 1 := hv'
        exact absurd hveq (by omega)
      · intro b' v' h
        exact TxPhase.noConfusion h
  | retryB bal ver hp hv =>
      refine ⟨by simpa [contrib, hp] using hbal, ?_, ?_⟩
      · intro b' v' h
        exact hA b' v' h
      · intro b' v' h
        simp at h

lemma cinv_reachable {S a b : ℚ} {s : CState}
    (h : Relation.ReflTransGen (WStep a b) (initState S) s) : CInv S a b s := by
  induction h with
  | refl => exact cinv_init S a b
  | tail _ hstep ih => exact cinv_step ih hstep

/-! ### Claims -/

/-- C1 (code bug): the handler keeps no record of processed gateway event
ids, so delivering the same notification (event id evt_1, amount 50000,
email a@x.com) twice credits the balance twice: starting from balance 0
the final balance is 1000, not the 500 the idempotence claim requires. -/
theorem double_delivery_credits_twice :
    ((paystackWebhook none auth0
        ((paystackWebhook none auth0 users0 demoBody).2) demoBody).2 "u1").map
      UserDoc.balance = some (some 1000) := by
  norm_num [paystackWebhook, auth0, users0, demoBody, doc0, creditTx, orZero]

/-- C2 (code bug): the handler never reads the signature header, so a
notification delivered with NO signature at all is still acknowledged
with 200 and still credits the balance (0 becomes 500), contradicting
the claim that unverifiable input is rejected without mutation. -/
theorem missing_signature_still_credits :
    (paystackWebhook none auth0 users0 demoBody).1 = WebhookResponse.ok200 ∧
    ((paystackWebhook none auth0 users0 demoBody).2 "u1").map UserDoc.balance
      = some (some 500) := by
  constructor
  · norm_num [paystackWebhook, auth0, users0, demoBody]
  · norm_num [paystackWebhook, auth0, users0, demoBody, doc0, creditTx, orZero]

/-- C3: under the optimistic per-document transaction semantics of
`db.runTransaction`, every completed interleaving of two concurrent
credit transactions of amounts `a` and `b` on a user with initial
balance `S` ends with balance `S + a/100 + b/100`: no lost update. -/
theorem webhook_concurrent_credits_no_lost_update (S a b : ℚ) (s : CState)
    (h : Relation.ReflTransGen (WStep a b) (initState S) s)
    (hA : s.txA = .committed) (hB : s.txB = .committed) :
    s.balance = S + a / 100 + b / 100 := by
  obtain ⟨hbal, -, -⟩ := cinv_reachable h
  rw [hbal, hA, hB]
  simp only [contrib]

/-- Witness for C3: a concrete four-step interleaving (read A, commit A,
read B, commit B) from balance 7 with amounts 300 and 500 ends at 15. -/
theorem webhook_concurrent_credits_no_lost_update_witness :
    (CState.mk 15 2 .committed .committed).balance = 7 + 300 / 100 + 500 / 100 := by
  refine webhook_concurrent_credits_no_lost_update 7 300 500 _ ?_ rfl rfl
  have h1 : WStep 300 500 (initState 7)
      (CState.mk 7 0 (.readDone 7 0) .pending) :=
    WStep.readA (initState 7) rfl
  have h2 : WStep 300 500 (CState.mk 7 0 (.readDone 7 0) .pending)
      (CState.mk 10 1 .committed .pending) :=
    WStep.commitA _ 7 0 _ rfl rfl (by norm_num [creditTx, orZero])
  have h3 : WStep 300 500 (CState.mk 10 1 .committed .pending)
      (CState.mk 10 1 .committed (.readDone 10 1)) :=
    WStep.readB _ rfl
  have h4 : WStep 300 500 (CState.mk 10 1 .committed (.readDone 10 1))
      (CState.mk 15 2 .committed .committed) :=
    WStep.commitB _ 10 1 _ rfl rfl (by norm_num [creditTx, orZero])
  exact Relation.ReflTransGen.head h1 (Relation.ReflTransGen.head h2
    (Relation.ReflTransGen.head h3 (Relation.ReflTransGen.single h4)))

/-- C4 (code bug): the round trip holds up to re-delivery — signup
creates balance 0 and the first charge.success over 50000 makes it
500 — but re-delivering the identical event raises the balance to 1000,
not the 500 the claim requires, because no dedup record exists. -/
theorem roundtrip_redelivery_credits_again :
    (postSignup.2.2 "u1").map UserDoc.balance = some (some 0) ∧
    (afterFirst.2 "u1").map UserDoc.balance = some (some 500) ∧
    (afterSecond.2 "u1").map UserDoc.balance = some (some 1000) := by
  refine ⟨?_, ?_, ?_⟩ <;>
    norm_num [postSignup, afterFirst, afterSecond, signup, paystackWebhook,
      authE, usersE, demoBody, creditTx, orZero]

/-- C5 counterexample: a charge.success notification whose `data` field
is absent is not answered 200 — line 123 throws before the try block, so
no response is sent at all — even though its signature was never the
problem. -/
theorem malformed_success_payload_not_200 :
    (paystackWebhook (some "sig") auth0 users0 noDataBody).1
      ≠ WebhookResponse.ok200 := by
  decide

/-- C5 amended: every webhook request that does not hit the uncaught
line-123 throw (event charge.success with `data` or `customer` absent)
is answered 200, regardless of the signature header and of any internal
processing failure; the crashing payloads get no response at all. -/
theorem webhook_always_200_unless_crash (sig : Option String) (auth : AuthDir)
    (users : Ledger) (b : WebhookBody) :
    (paystackWebhook sig auth users b).1 =
      (if crashes b then WebhookResponse.uncaught else WebhookResponse.ok200) := by
  obtain ⟨ev, dat⟩ := b
  by_cases hev : ev = some "charge.success"
  · subst hev
    cases dat with
    | none => simp [paystackWebhook, crashes]
    | some d =>
      obtain ⟨c, amt, tid⟩ := d
      cases c with
      | none => simp [paystackWebhook, crashes]
      | some cust =>
        obtain ⟨em⟩ := cust
        cases em with
        | none => simp [paystackWebhook, crashes]
        | some e =>
          cases hau : auth e with
          | none => simp [paystackWebhook, crashes, hau]
          | some uid =>
            cases hus : users uid with
            | none => simp [paystackWebhook, crashes, hau, hus]
            | some doc => simp [paystackWebhook, crashes, hau, hus]
  · simp [paystackWebhook, crashes, hev]

/-- C6: a charge.success notification whose payer email resolves to no
account is acknowledged with 200 and leaves the ledger untouched (the
`getUserByEmail` rejection is caught inside the try block). -/
theorem unknown_email_acknowledged_unchanged (sig : Option String)
    (auth : AuthDir) (users : Ledger) (b : WebhookBody) (d : PaystackData)
    (c : Customer) (e : String) (hev : b.event = some "charge.success")
    (hd : b.data = some d) (hc : d.customer = some c) (he : c.email = some e)
    (ha : auth e = none) :
    paystackWebhook sig auth users b = (WebhookResponse.ok200, users) := by
  simp [paystackWebhook, hev, hd, hc, he, ha]

/-- Witness for C6: the demo notification against an empty directory. -/
theorem unknown_email_acknowledged_unchanged_witness :
    paystackWebhook none authE users0 demoBody
      = (WebhookResponse.ok200, users0) :=
  unknown_email_acknowledged_unchanged none authE users0 demoBody _ _
    "a@x.com" rfl rfl rfl rfl rfl

/-- C7 (code bug): a charge.success payload with no `data` object makes
line 123 throw outside the try block: the handler sends no HTTP response
at all (`uncaught`) instead of the client error the claim requires; the
ledger is left unchanged. -/
theorem malformed_payload_uncaught_no_response :
    paystackWebhook none auth0 users0 noDataBody
      = (WebhookResponse.uncaught, users0) := rfl

/-- C8: any webhook whose event is not charge.success (absent or any
other string) falls through to `sendStatus(200)` with no mutation. -/
theorem non_success_event_no_mutation (sig : Option String) (auth : AuthDir)
    (users : Ledger) (b : WebhookBody)
    (h : b.event ≠ some "charge.success") :
    paystackWebhook sig auth users b = (WebhookResponse.ok200, users) := by
  unfold paystackWebhook
  rw [if_neg h]

/-- Witness for C8: a charge.failed event on the demo ledger. -/
theorem non_success_event_no_mutation_witness :
    paystackWebhook none auth0 users0
        { event := some "charge.failed", data := none }
      = (WebhookResponse.ok200, users0) :=
  non_success_event_no_mutation none auth0 users0 _ (by decide)

/-- C9 counterexample: logging activity "login" at timestamp t1 when an
identical entry is already stored appends nothing — Firestore
`arrayUnion` skips elements already present — so "exactly one entry is
appended" fails on this input. -/
theorem duplicate_activity_not_appended :
    ((logActivity users9 "u1" "login" "t1").2 "u1").map
        (fun d => d.dailyActivities) = some doc9.dailyActivities ∧
    ((logActivity users9 "u1" "login" "t1").2 "u1").map
        (fun d => d.dailyActivities)
      ≠ some (doc9.dailyActivities ++ [⟨"login", "t1"⟩]) := by
  constructor
  · norm_num [logActivity, users9, doc9, doc0, arrayUnion]
  · norm_num [logActivity, users9, doc9, doc0, arrayUnion]

/-- C9 amended: when the fresh entry is not already present in the
user's dailyActivities, the request returns 200 and appends exactly that
one entry at the end, leaving prior entries and every other field — and
every other user — unchanged. -/
theorem logActivity_appends_fresh (users : Ledger) (uid act now : String)
    (doc : UserDoc) (h : users uid = some doc)
    (hfresh : Entry.mk act now ∉ doc.dailyActivities) :
    (logActivity users uid act now).1 = 200 ∧
    (logActivity users uid act now).2 uid =
      some { doc with dailyActivities := doc.dailyActivities ++ [⟨act, now⟩] } ∧
    ∀ u, u ≠ uid → (logActivity users uid act now).2 u = users u := by
  refine ⟨?_, ?_, ?_⟩
  · simp [logActivity, h]
  · simp [logActivity, h, arrayUnion, hfresh]
  · intro u hu
    simp [logActivity, h, hu]

/-- Witness for C9's amended theorem: logging "login" at t1 on the
freshly signed-up document appends the single entry. -/
theorem logActivity_appends_fresh_witness :
    users0 "u1" = some doc0 ∧
    Entry.mk "login" "t1" ∉ doc0.dailyActivities ∧
    (logActivity users0 "u1" "login" "t1").2 "u1" =
      some { doc0 with dailyActivities := doc0.dailyActivities ++ [⟨"login", "t1"⟩] } :=
  ⟨rfl, by decide,
    (logActivity_appends_fresh users0 "u1" "login" "t1" doc0 rfl (by decide)).2.1⟩

/-- C10: on the success path, a ledger record whose balance field is
absent — or holds the falsy value 0 — is treated as balance 0: the
handler acknowledges with 200 and stores exactly the converted credited
amount. -/
theorem missing_balance_defaults_zero (sig : Option String) (auth : AuthDir)
    (users : Ledger) (b : WebhookBody) (d : PaystackData) (c : Customer)
    (e uid : String) (doc : UserDoc)
    (hev : b.event = some "charge.success") (hd : b.data = some d)
    (hc : d.customer = some c) (he : c.email = some e)
    (ha : auth e = some uid) (hu : users uid = some doc)
    (hb : doc.balance = none ∨ doc.balance = some 0) :
    (paystackWebhook sig auth users b).1 = WebhookResponse.ok200 ∧
    (paystackWebhook sig auth users b).2 uid =
      some { doc with balance := some (d.amount / 100) } := by
  have hz : creditTx doc.balance d.amount = d.amount / 100 := by
    rcases hb with hb | hb <;> rw [creditTx, hb] <;> simp [orZero]
  constructor
  · simp [paystackWebhook, hev, hd, hc, he, ha, hu]
  · simp [paystackWebhook, hev, hd, hc, he, ha, hu, hz]

/-- Witness for C10: the demo notification against a ledger whose u1
document lacks the balance field. -/
theorem missing_balance_defaults_zero_witness :
    (paystackWebhook none auth0 usersNB demoBody).1 = WebhookResponse.ok200 ∧
    (paystackWebhook none auth0 usersNB demoBody).2 "u1" =
      some { docNB with balance := some (50000 / 100) } :=
  missing_balance_defaults_zero none auth0 usersNB demoBody _ _
    "a@x.com" "u1" docNB rfl rfl rfl rfl rfl rfl (Or.inl rfl)
